import Mathlib

/-!
Shallow embedding of the snap-snap instant-camera simulator.

Sources embedded here:
- src/types.ts                      (PhotoData)
- src/App.tsx                       (item store, print slot, pickup, updates, delete)
- src/components/Photo.tsx          (Photo interaction engine, lines 1-189, and the
                                     PolaroidCamera capture pipeline, lines 190-608)

Numbers that the sources hold as JS floats are modelled as rationals, except
the rotation-angle computation which needs real arctangent and is modelled
over the reals.
-/

namespace SnapSnap

/-- One placed card, from src/types.ts (interface PhotoData). -/
structure PhotoData where
  id : String
  url : String
  timestamp : Int
  x : ℚ
  y : ℚ
  rotation : ℚ
  scale : ℚ
  isDeveloping : Bool
  borderColor : Option String
deriving DecidableEq

/-- The transient print-slot entry of App state (src/App.tsx, currentPrint). -/
structure CurrentPrint where
  url : String
  timestamp : Int
  borderColor : String
deriving DecidableEq

/-- App-level state (src/App.tsx): the item store, the print slot, the
printing flag and the global selected id. -/
structure AppState where
  photos : List PhotoData
  currentPrint : Option CurrentPrint
  isPrinting : Bool
  selectedPhotoId : Option String
deriving DecidableEq

/-- The weighted pastel palette (src/App.tsx, PASTEL_COLORS). -/
def PASTEL_COLORS : List String :=
  ["#ffffff", "#ffffff", "#fff0f5", "#f0f8ff", "#f5f5dc",
   "#faf0e6", "#e6e6fa", "#ffe4e1", "#f0fff0", "#fffacd"]

/-- src/App.tsx handleCapture: places the captured image in the print slot with
a palette color chosen by a random index, and raises isPrinting. The 1.5 s
timeout that later lowers isPrinting is modelled separately as ejectSettle. -/
def handleCapture (s : AppState) (imageUrl : String) (now : Int) (colorIdx : Fin 10) :
    AppState :=
  { s with
    isPrinting := true
    currentPrint := some
      { url := imageUrl
        timestamp := now
        borderColor := PASTEL_COLORS.get
          ⟨colorIdx.val, lt_of_lt_of_le colorIdx.isLt (by decide)⟩ } }

/-- The setTimeout callback inside src/App.tsx handleCapture: after the eject
animation the printing flag clears but the slot keeps its image. -/
def ejectSettle (s : AppState) : AppState :=
  { s with isPrinting := false }

/-- src/App.tsx handleDragFromCamera (lines 45-79): pickup of the print. If
the slot is empty this is a no-op; otherwise a new photo is appended at
pointer minus (120, 50), with rotation rand * 10 - 5, scale 1, marked
developing, selected, and the slot is cleared. rand stands for the value of
Math.random(), in [0, 1). -/
def handleDragFromCamera (s : AppState) (clientX clientY : ℚ) (newId : String)
    (rand : ℚ) : AppState :=
  match s.currentPrint with
  | none => s
  | some cp =>
    let randomRotation := rand * 10 - 5
    let initialX := clientX - 120
    let initialY := clientY - 50
    let newPhoto : PhotoData :=
      { id := newId
        url := cp.url
        timestamp := cp.timestamp
        x := initialX
        y := initialY
        rotation := randomRotation
        scale := 1
        isDeveloping := true
        borderColor := some cp.borderColor }
    { s with
      photos := s.photos ++ [newPhoto]
      selectedPhotoId := some newId
      currentPrint := none
      isPrinting := false }

/-- src/App.tsx updatePhotoPosition (lines 81-83): map over the store,
replacing x and y on the photo whose id matches. -/
def updatePhotoPosition (s : AppState) (id : String) (x y : ℚ) : AppState :=
  { s with photos := s.photos.map (fun p => if p.id = id then { p with x := x, y := y } else p) }

/-- src/App.tsx updatePhotoTransform (lines 85-87): map over the store,
replacing rotation and scale on the photo whose id matches. -/
def updatePhotoTransform (s : AppState) (id : String) (rotation scale : ℚ) : AppState :=
  { s with photos := (s.photos.map
      (fun p => if p.id = id then { p with rotation := rotation, scale := scale } else p)) }

/-- src/App.tsx deletePhoto (lines 89-91): filter the photo out of the store.
Note: the source does not touch selectedPhotoId here. -/
def deletePhoto (s : AppState) (id : String) : AppState :=
  { s with photos := s.photos.filter (fun p => p.id != id) }

/-- A concrete photo used in concrete instantiations. -/
def samplePhotoA : PhotoData :=
  { id := "a", url := "u", timestamp := 0, x := 0, y := 0, rotation := 0,
    scale := 1, isDeveloping := false, borderColor := none }

/-- A concrete app state whose only photo is selected. -/
def sampleState : AppState :=
  { photos := [samplePhotoA], currentPrint := none, isPrinting := false,
    selectedPhotoId := some "a" }

/-- Claim C2, counterexample: deleting the selected photo leaves the stored
global selected-id unchanged (still some "a"), not none, because deletePhoto
only filters the store. -/
theorem deletePhoto_selectedId_not_cleared :
    (deletePhoto sampleState "a").selectedPhotoId ≠ none := by
  decide

/-- Claim C2, amended: deletePhoto removes every photo with the given id from
the store unconditionally, and leaves the stored selected-id untouched; hence
after deleting the selected photo no photo of the store carries the selected
id (the derived selection is empty), although the stored id is not literally
none. -/
theorem deletePhoto_spec (s : AppState) (id : String) :
    (deletePhoto s id).photos = s.photos.filter (fun p => p.id != id) ∧
    (∀ p ∈ (deletePhoto s id).photos, p.id ≠ id) ∧
    (deletePhoto s id).selectedPhotoId = s.selectedPhotoId ∧
    (s.selectedPhotoId = some id →
      ∀ p ∈ (deletePhoto s id).photos, (deletePhoto s id).selectedPhotoId ≠ some p.id) := by
  refine ⟨rfl, ?_, rfl, ?_⟩
  · intro p hp
    have := List.of_mem_filter hp
    simpa using this
  · intro hsel p hp hcontra
    have hne : p.id ≠ id := by
      have := List.of_mem_filter hp
      simpa using this
    have hsel2 : (deletePhoto s id).selectedPhotoId = some id := by
      simpa [deletePhoto] using hsel
    rw [hsel2] at hcontra
    exact hne (Option.some.inj hcontra).symm

/-- Claim C2, witness for the amended theorem: on the concrete selected store,
after the delete no stored photo carries the selected id. -/
theorem deletePhoto_spec_witness :
    ∀ p ∈ (deletePhoto sampleState "a").photos,
      (deletePhoto sampleState "a").selectedPhotoId ≠ some p.id :=
  (deletePhoto_spec sampleState "a").2.2.2 rfl

/-- A concrete print-slot entry. -/
def sampleCP : CurrentPrint :=
  { url := "img", timestamp := 0, borderColor := "#ffffff" }

/-- A concrete app state holding a print awaiting pickup. -/
def slotState : AppState :=
  { photos := [], currentPrint := some sampleCP, isPrinting := true,
    selectedPhotoId := none }

/-- Claim C3: with a non-empty print slot, pickup at pointer (px, py) appends
exactly one new photo at position (px - 120, py - 50) with rotation in
[-5, 5], scale 1, and marks it as the globally selected item. -/
theorem handleDragFromCamera_spec (s : AppState) (cp : CurrentPrint)
    (hcp : s.currentPrint = some cp) (px py : ℚ) (newId : String) (r : ℚ)
    (hr0 : 0 ≤ r) (hr1 : r < 1) :
    ∃ newPhoto : PhotoData,
      (handleDragFromCamera s px py newId r).photos = s.photos ++ [newPhoto] ∧
      newPhoto.id = newId ∧
      newPhoto.x = px - 120 ∧
      newPhoto.y = py - 50 ∧
      -5 ≤ newPhoto.rotation ∧ newPhoto.rotation ≤ 5 ∧
      newPhoto.scale = 1 ∧
      (handleDragFromCamera s px py newId r).selectedPhotoId = some newId := by
  refine ⟨{ id := newId, url := cp.url, timestamp := cp.timestamp,
            x := px - 120, y := py - 50, rotation := r * 10 - 5, scale := 1,
            isDeveloping := true, borderColor := some cp.borderColor },
          ?_, rfl, rfl, rfl, ?_, ?_, rfl, ?_⟩
  · simp [handleDragFromCamera, hcp]
  · show -5 ≤ r * 10 - 5
    linarith
  · show r * 10 - 5 ≤ 5
    linarith
  · simp [handleDragFromCamera, hcp]

/-- Claim C3, witness: pickup from a concrete slot at pointer (500, 300)
produces a photo at (380, 250) = (500 - 120, 300 - 50), selected. -/
theorem handleDragFromCamera_spec_witness :
    ∃ newPhoto : PhotoData,
      (handleDragFromCamera slotState 500 300 "n" (1/2)).photos
        = slotState.photos ++ [newPhoto] ∧
      newPhoto.id = "n" ∧
      newPhoto.x = 500 - 120 ∧
      newPhoto.y = 300 - 50 ∧
      -5 ≤ newPhoto.rotation ∧ newPhoto.rotation ≤ 5 ∧
      newPhoto.scale = 1 ∧
      (handleDragFromCamera slotState 500 300 "n" (1/2)).selectedPhotoId = some "n" :=
  handleDragFromCamera_spec slotState sampleCP rfl 500 300 "n" (1/2)
    (by norm_num) (by norm_num)

/-- Claim C4: pickup clears the print slot, and a second pickup on the
resulting state is the identity: the store (size and contents) and all other
state are unchanged by the second call. -/
theorem pickup_clears_slot (s : AppState) (cp : CurrentPrint)
    (hcp : s.currentPrint = some cp) (px py : ℚ) (newId : String) (r : ℚ) :
    (handleDragFromCamera s px py newId r).currentPrint = none ∧
    ∀ px2 py2 : ℚ, ∀ newId2 : String, ∀ r2 : ℚ,
      handleDragFromCamera (handleDragFromCamera s px py newId r) px2 py2 newId2 r2
        = handleDragFromCamera s px py newId r := by
  constructor
  · simp [handleDragFromCamera, hcp]
  · intro px2 py2 newId2 r2
    simp [handleDragFromCamera, hcp]

/-- Claim C4, witness: on the concrete slot state, pickup empties the slot and
a repeated pickup is the identity. -/
theorem pickup_clears_slot_witness :
    (handleDragFromCamera slotState 500 300 "n" (1/2)).currentPrint = none ∧
    ∀ px2 py2 : ℚ, ∀ newId2 : String, ∀ r2 : ℚ,
      handleDragFromCamera (handleDragFromCamera slotState 500 300 "n" (1/2))
          px2 py2 newId2 r2
        = handleDragFromCamera slotState 500 300 "n" (1/2) :=
  pickup_clears_slot slotState sampleCP rfl 500 300 "n" (1/2)

/-- src/components/Photo.tsx handleMouseDown (lines 28-38): capture the offset
between pointer and the current item position (dragOffset). -/
def mouseDownDragOffset (clientX clientY : ℚ) (data : PhotoData) : ℚ × ℚ :=
  (clientX - data.x, clientY - data.y)

/-- Drag branch of handleMouseMove (src/components/Photo.tsx lines 55-60):
newX = clientX - dragOffset.x, newY = clientY - dragOffset.y. -/
def dragMovePosition (clientX clientY : ℚ) (dragOffset : ℚ × ℚ) : ℚ × ℚ :=
  (clientX - dragOffset.1, clientY - dragOffset.2)

/-- Claim C7: the drag offset is captured at pointer-down, and a pointer-move
sets the position to pointer minus captured offset, with no bounds; the grab
point is preserved, so the item translates by the pointer displacement. The
second conjunct is the claimed concrete run: item at (0, 0) grabbed at
(50, 50), moved to (200, 200), ends at (150, 150). -/
theorem drag_move_spec (data : PhotoData) (x0 y0 x1 y1 : ℚ) :
    dragMovePosition x1 y1 (mouseDownDragOffset x0 y0 data)
        = (x1 - (mouseDownDragOffset x0 y0 data).1,
           y1 - (mouseDownDragOffset x0 y0 data).2) ∧
    dragMovePosition x1 y1 (mouseDownDragOffset x0 y0 data)
        = (data.x + (x1 - x0), data.y + (y1 - y0)) ∧
    dragMovePosition 200 200 (mouseDownDragOffset 50 50 { data with x := 0, y := 0 })
        = (150, 150) := by
  refine ⟨rfl, ?_, ?_⟩
  · simp only [dragMovePosition, mouseDownDragOffset, Prod.mk.injEq]
    constructor <;> ring
  · simp only [dragMovePosition, mouseDownDragOffset, Prod.mk.injEq]
    norm_num

/-- Resize branch of handleMouseMove (src/components/Photo.tsx lines 75-92):
newScale = Math.max(0.3, Math.min(3, dist / 150)). -/
def resizeScale (dist : ℚ) : ℚ :=
  max (3/10) (min 3 (dist / 150))

/-- Claim C5: for a pointer at Euclidean distance d from the item center
(d squared equals the sum of squared deltas), the post-update scale equals
clamp(d / 150, 0.3, 3.0), hence lies in [0.3, 3.0]; boundary values:
d = 0 gives 0.3, d = 150 gives 1, d = 450 gives 3. -/
theorem resize_scale_clamped (px py cx cy d : ℚ) (_hd : 0 ≤ d)
    (_hdist : d ^ 2 = (px - cx) ^ 2 + (py - cy) ^ 2) :
    resizeScale d = max (3/10) (min 3 (d / 150)) ∧
    3/10 ≤ resizeScale d ∧
    resizeScale d ≤ 3 ∧
    resizeScale 0 = 3/10 ∧
    resizeScale 150 = 1 ∧
    resizeScale 450 = 3 := by
  refine ⟨rfl, le_max_left _ _, ?_, by norm_num [resizeScale], by norm_num [resizeScale],
    by norm_num [resizeScale]⟩
  exact max_le (by norm_num) (min_le_left _ _)

/-- Claim C5, witness: pointer at (450, 0), center (0, 0), distance 450: the
scale clamps to 3 and all boundary values hold. -/
theorem resize_scale_clamped_witness :
    resizeScale 450 = max (3/10) (min 3 (450 / 150)) ∧
    3/10 ≤ resizeScale 450 ∧
    resizeScale 450 ≤ 3 ∧
    resizeScale 0 = 3/10 ∧
    resizeScale 150 = 1 ∧
    resizeScale 450 = 3 :=
  resize_scale_clamped 450 0 0 0 450 (by norm_num) (by norm_num)

/-- Claim C10: the two store updates are exactly framed. At every index the
updated store holds the old photo with only the two updated fields replaced
when the id matches, and the old photo unchanged otherwise; the store length
is unchanged; and when no photo carries the id both updates are the
identity on the whole state. -/
theorem updates_are_framed (s : AppState) (id : String) (x y rot sc : ℚ) :
    (updatePhotoPosition s id x y).photos.length = s.photos.length ∧
    (∀ i : ℕ, (updatePhotoPosition s id x y).photos[i]? =
      (s.photos[i]?).map (fun p => if p.id = id then { p with x := x, y := y } else p)) ∧
    (updatePhotoTransform s id rot sc).photos.length = s.photos.length ∧
    (∀ i : ℕ, (updatePhotoTransform s id rot sc).photos[i]? =
      (s.photos[i]?).map
        (fun p => if p.id = id then { p with rotation := rot, scale := sc } else p)) ∧
    ((∀ p ∈ s.photos, p.id ≠ id) →
      updatePhotoPosition s id x y = s ∧ updatePhotoTransform s id rot sc = s) := by
  refine ⟨by simp [updatePhotoPosition], ?_, by simp [updatePhotoTransform], ?_, ?_⟩
  · intro i
    simp [updatePhotoPosition, List.getElem?_map]
  · intro i
    simp [updatePhotoTransform, List.getElem?_map]
  · intro hno
    have hmap : ∀ (f : PhotoData → PhotoData) (l : List PhotoData),
        (∀ p ∈ l, f p = p) → l.map f = l := by
      intro f l
      induction l with
      | nil => intro _; rfl
      | cons a t ih =>
        intro hf
        simp only [List.map_cons]
        rw [hf a (by simp), ih (fun p hp => hf p (by simp [hp]))]
    constructor
    · unfold updatePhotoPosition
      rw [hmap _ _ (fun p hp => by simp [hno p hp])]
    · unfold updatePhotoTransform
      rw [hmap _ _ (fun p hp => by simp [hno p hp])]

/-- Claim C10, witness: on the concrete store, an update with an id present
nowhere leaves the whole state unchanged, and the framing equations hold at
index 0. -/
theorem updates_are_framed_witness :
    ((updatePhotoPosition sampleState "z" 1 2).photos[0]? =
      ((sampleState.photos[0]?).map
        (fun p => if p.id = "z" then { p with x := 1, y := 2 } else p))) ∧
    updatePhotoPosition sampleState "z" 1 2 = sampleState ∧
    updatePhotoTransform sampleState "z" 3 4 = sampleState :=
  ⟨(updates_are_framed sampleState "z" 1 2 3 4).2.1 0,
   ((updates_are_framed sampleState "z" 1 2 3 4).2.2.2.2 (by decide)).1,
   ((updates_are_framed sampleState "z" 1 2 3 4).2.2.2.2 (by decide)).2⟩

/-- The part of the HTMLVideoElement state the capture path reads: its
intrinsic frame dimensions. A denied camera permission only sets
permissionError (src/components/Photo.tsx lines 261-281); the video element
stays mounted without a stream, so both dimensions read 0. -/
structure VideoState where
  videoWidth : ℕ
  videoHeight : ℕ
deriving DecidableEq

/-- Combined camera and app state for the shutter path
(src/components/Photo.tsx lines 242-429 with src/App.tsx). The video and
canvas refs enter handleShutterPress as an Option VideoState argument: none
models null refs (possible only with the component unmounted), some v the
mounted element with its current dimensions. -/
structure SystemState where
  app : AppState
  isFolded : Bool
  flashActive : Bool
  isFlashEnabled : Bool
deriving DecidableEq

/-- Whether the frame source is open: refs mounted and the stream delivering
frames, visible as nonzero video dimensions. Permission denied leaves the
mounted element at dimensions 0 x 0, so the device counts as not open. -/
def deviceOpen : Option VideoState → Bool
  | none => false
  | some v => decide (0 < min v.videoWidth v.videoHeight)

/-- canCapture, as the spec defines it: device open AND no capture in flight
AND camera not folded closed. -/
def canCapture (s : SystemState) (video : Option VideoState) : Bool :=
  deviceOpen video && !s.app.isPrinting && !s.isFolded

/-- JS toDataURL on the capture canvas after the pipeline ran: a canvas of
zero size encodes to the junk string "data:,"; a nonzero canvas encodes the
stylized frame, which enters the model as the encodedImage argument (the
pipeline stages themselves are modelled by filterString and grainStage). -/
def canvasDataUrl (size : ℕ) (encodedImage : String) : String :=
  if size = 0 then "data:," else encodedImage

/-- src/components/Photo.tsx handleShutterPress (lines 287-429): returns the
state unchanged when printing or folded; otherwise fires the flash pulse when
flash is enabled; returns if the video or canvas refs are null (possible only
unmounted); otherwise draws the centered square of size
min(videoWidth, videoHeight) through the pipeline — with no zero-size
check — and hands the encoded canvas to onCapture (App handleCapture), which
writes it into the print slot and raises isPrinting. -/
def handleShutterPress (s : SystemState) (video : Option VideoState)
    (encodedImage : String) (now : Int) (colorIdx : Fin 10) : SystemState :=
  if s.app.isPrinting || s.isFolded then s
  else
    let s1 := if s.isFlashEnabled then { s with flashActive := true } else s
    match video with
    | none => s1
    | some v =>
      let size := min v.videoWidth v.videoHeight
      { s1 with app := handleCapture s1.app (canvasDataUrl size encodedImage) now colorIdx }

/-- Claim C1, failing run: with the camera permission denied the video element
stays mounted at 0 x 0, so canCapture is false (device not open) while a
shutter press still runs the pipeline on a zero-size canvas and writes the
junk image "data:," into the previously empty print slot, raising isPrinting.
This contradicts the claim, which demands a rejected no-op with the print
slot unchanged for exactly this case. -/
theorem shutter_press_writes_junk_when_device_not_open :
    canCapture { app := sampleState, isFolded := false, flashActive := false,
                 isFlashEnabled := false } (some ⟨0, 0⟩) = false ∧
    sampleState.currentPrint = none ∧
    (handleShutterPress
        { app := sampleState, isFolded := false, flashActive := false,
          isFlashEnabled := false } (some ⟨0, 0⟩) "unused" 7 3).app.currentPrint
      = some { url := "data:,", timestamp := 7, borderColor := "#f0f8ff" } ∧
    (handleShutterPress
        { app := sampleState, isFolded := false, flashActive := false,
          isFlashEnabled := false } (some ⟨0, 0⟩) "unused" 7 3).app.isPrinting
      = true := by
  decide

/-- A tint preset (src/components/Photo.tsx, TINT_OPTIONS entries,
lines 204-240). -/
structure TintProfile where
  id : String
  name : String
  color : String
  vignette : String
  overlay : Option String
deriving DecidableEq

/-- src/components/Photo.tsx TINT_OPTIONS (lines 204-240). -/
def TINT_OPTIONS : List TintProfile :=
  [{ id := "neutral", name := "Standard", color := "bg-zinc-500",
     vignette := "rgba(15,15,15,0.75)", overlay := none },
   { id := "blue", name := "Midnight Ice", color := "bg-blue-600",
     vignette := "rgba(10, 20, 55, 0.92)", overlay := some "rgba(210, 240, 255, 0.18)" },
   { id := "red", name := "Velvet", color := "bg-red-700",
     vignette := "rgba(70, 5, 20, 0.85)", overlay := some "rgba(255, 40, 0, 0.08)" },
   { id := "emerald", name := "Forest", color := "bg-emerald-700",
     vignette := "rgba(5, 50, 30, 0.85)", overlay := some "rgba(0, 255, 100, 0.06)" },
   { id := "amber", name := "Sepia", color := "bg-amber-500",
     vignette := "rgba(60, 40, 10, 0.85)", overlay := some "rgba(255, 180, 0, 0.1)" }]

/-- The parameters of one CSS filter string of the base grade: hue rotation
in degrees, saturation, brightness, contrast and sepia factors. A component
absent from the filter string is its identity value (hue 0, sepia 0). -/
structure GradeParams where
  hueRotateDeg : ℚ
  saturate : ℚ
  brightness : ℚ
  contrast : ℚ
  sepia : ℚ
deriving DecidableEq

/-- The base color grade selection of handleShutterPress
(src/components/Photo.tsx lines 319-336): the filter string depends only on
whether the profile id is "blue" and on the flash flag. -/
def filterString (profileId : String) (flash : Bool) : GradeParams :=
  if profileId = "blue" then
    if flash then
      { hueRotateDeg := -36, saturate := 0.32, brightness := 1.48, contrast := 1.58,
        sepia := 0 }
    else
      { hueRotateDeg := -20, saturate := 0.50, brightness := 1.22, contrast := 1.12,
        sepia := 0 }
  else
    if flash then
      { hueRotateDeg := 0, saturate := 1.1, brightness := 1.3, contrast := 1.4,
        sepia := 0.05 }
    else
      { hueRotateDeg := -5, saturate := 0.85, brightness := 1.1, contrast := 0.9,
        sepia := 0.15 }

/-- Claim C8: the base grade parameters are a function of the pair
(id = "blue", flash) only; every output is one of four fixed tuples; and all
non-blue presets of TINT_OPTIONS share the neutral coefficients for a given
flash setting. -/
theorem base_grade_four_tuples :
    (∀ p q : TintProfile, ∀ flash : Bool, ((p.id = "blue") ↔ (q.id = "blue")) →
      filterString p.id flash = filterString q.id flash) ∧
    (∀ pid : String, ∀ flash : Bool,
      filterString pid flash = filterString "neutral" false ∨
      filterString pid flash = filterString "neutral" true ∨
      filterString pid flash = filterString "blue" false ∨
      filterString pid flash = filterString "blue" true) ∧
    (∀ p ∈ TINT_OPTIONS, p.id ≠ "blue" → ∀ flash : Bool,
      filterString p.id flash = filterString "neutral" flash) := by
  refine ⟨?_, ?_, ?_⟩
  · intro p q flash hiff
    by_cases hp : p.id = "blue"
    · rw [filterString, if_pos hp, filterString, if_pos (hiff.mp hp)]
    · rw [filterString, if_neg hp, filterString, if_neg (fun hq => hp (hiff.mpr hq))]
  · intro pid flash
    by_cases hp : pid = "blue" <;> cases flash <;>
      simp [filterString, hp]
  · intro p _ hne flash
    rw [filterString, if_neg hne, filterString,
      if_neg (show ¬("neutral" = "blue") by decide)]

/-- Claim C8, witness: two concrete non-blue presets share the grade under
flash, and a non-blue preset of the list matches the neutral coefficients. -/
theorem base_grade_four_tuples_witness :
    filterString "red" true = filterString "amber" true ∧
    filterString "emerald" false = filterString "neutral" false :=
  ⟨base_grade_four_tuples.1
      { id := "red", name := "Velvet", color := "bg-red-700",
        vignette := "rgba(70, 5, 20, 0.85)", overlay := some "rgba(255, 40, 0, 0.08)" }
      { id := "amber", name := "Sepia", color := "bg-amber-500",
        vignette := "rgba(60, 40, 10, 0.85)", overlay := some "rgba(255, 180, 0, 0.1)" }
      true (by decide),
   base_grade_four_tuples.2.2
      { id := "emerald", name := "Forest", color := "bg-emerald-700",
        vignette := "rgba(5, 50, 30, 0.85)", overlay := some "rgba(0, 255, 100, 0.06)" }
      (by decide) (by decide) false⟩

/-- One RGBA pixel of the capture canvas ImageData; the channel values are
the stored bytes, in [0, 255]. -/
structure Pixel where
  r : ℕ
  g : ℕ
  b : ℕ
  a : ℕ
deriving DecidableEq

/-- Writing a float into a Uint8ClampedArray slot (the type of ImageData
data): clamp to [0, 255] and round to the nearest integer. -/
def uint8Clamp (x : ℚ) : ℕ :=
  if x ≤ 0 then 0 else if 255 ≤ x then 255 else (round x).toNat

/-- The grain amount of the grain stage (src/components/Photo.tsx line 413):
14 for the blue profile, 22 otherwise. -/
def grainAmount (profileId : String) : ℚ :=
  if profileId = "blue" then 14 else 22

/-- One iteration of the grain loop (src/components/Photo.tsx lines 414-419):
a single noise value n = (Math.random() - 0.5) * grain is added to the R, G
and B bytes of one pixel (each write clamps, because ImageData data is a
Uint8ClampedArray); the alpha byte is not touched. -/
def addGrain (grain : ℚ) (rand : ℚ) (p : Pixel) : Pixel :=
  let n := (rand - 0.5) * grain
  { r := uint8Clamp (p.r + n), g := uint8Clamp (p.g + n),
    b := uint8Clamp (p.b + n), a := p.a }

/-- The grain loop (src/components/Photo.tsx lines 410-423) over the pixel
list, pixel i consuming the i-th Math.random() draw. -/
def grainLoop (grain : ℚ) (rands : ℕ → ℚ) : ℕ → List Pixel → List Pixel
  | _, [] => []
  | i, p :: ps => addGrain grain (rands i) p :: grainLoop grain rands (i + 1) ps

/-- The whole grain stage: the grain amount from the selected profile id,
then the per-pixel loop. -/
def grainStage (profileId : String) (rands : ℕ → ℚ) (img : List Pixel) :
    List Pixel :=
  grainLoop (grainAmount profileId) rands 0 img

/-- The clamped byte write never exceeds 255. -/
theorem uint8Clamp_le_255 (x : ℚ) : uint8Clamp x ≤ 255 := by
  unfold uint8Clamp
  by_cases h1 : x ≤ 0
  · simp [h1]
  · by_cases h2 : (255 : ℚ) ≤ x
    · simp [h1, h2]
    · simp only [h1, h2, if_false]
      have hx : x < 255 := lt_of_not_le h2
      have habs := abs_sub_round x
      rw [abs_le] at habs
      have h3 : (round x : ℚ) ≤ x + 1/2 := by linarith [habs.1]
      have h4 : (round x : ℚ) < 256 := by linarith
      have h5 : round x < 256 := by exact_mod_cast h4
      have h6 : round x ≤ 255 := by omega
      exact Int.toNat_le.mpr (by exact_mod_cast h6)

/-- Indexing the grain loop: position i of the output is the input pixel at i
with the i-th noise value applied. -/
theorem grainLoop_getElem (g : ℚ) (rands : ℕ → ℚ) :
    ∀ (l : List Pixel) (k i : ℕ),
      (grainLoop g rands k l)[i]? = (l[i]?).map (addGrain g (rands (k + i))) := by
  intro l
  induction l with
  | nil => intro k i; simp [grainLoop]
  | cons p ps ih =>
    intro k i
    cases i with
    | zero => simp [grainLoop]
    | succ j =>
      simp only [grainLoop, List.getElem?_cons_succ]
      rw [ih (k + 1) j, show k + 1 + j = k + (j + 1) from by omega]

/-- Claim C9: in the grain stage, each pixel receives a single noise value n
with |n| bounded by grain / 2, added identically to the R, G and B channels
while alpha is unchanged; grain is 14 for the blue profile and 22 otherwise;
and every resulting channel value is clamped into [0, 255]. -/
theorem grain_stage_spec (pid : String) (rands : ℕ → ℚ)
    (hr : ∀ i, 0 ≤ rands i ∧ rands i < 1) (img : List Pixel) (i : ℕ) (p : Pixel)
    (hp : img[i]? = some p) :
    ∃ n : ℚ, |n| ≤ grainAmount pid / 2 ∧
      (grainStage pid rands img)[i]? =
        some { r := uint8Clamp (p.r + n), g := uint8Clamp (p.g + n),
               b := uint8Clamp (p.b + n), a := p.a } ∧
      uint8Clamp (p.r + n) ≤ 255 ∧ uint8Clamp (p.g + n) ≤ 255 ∧
      uint8Clamp (p.b + n) ≤ 255 ∧
      grainAmount pid = (if pid = "blue" then 14 else 22) := by
  refine ⟨(rands i - 0.5) * grainAmount pid, ?_, ?_, uint8Clamp_le_255 _,
    uint8Clamp_le_255 _, uint8Clamp_le_255 _, rfl⟩
  · have h1 := (hr i).1
    have h2 := (hr i).2
    have hg : 0 ≤ grainAmount pid := by
      unfold grainAmount; split <;> norm_num
    have habs : |rands i - 0.5| ≤ 1/2 := abs_le.mpr ⟨by linarith, by linarith⟩
    calc |(rands i - 0.5) * grainAmount pid|
        = |rands i - 0.5| * grainAmount pid := by rw [abs_mul, abs_of_nonneg hg]
      _ ≤ (1/2) * grainAmount pid := mul_le_mul_of_nonneg_right habs hg
      _ = grainAmount pid / 2 := by ring
  · rw [grainStage, grainLoop_getElem _ _ img 0 i, hp]
    simp [addGrain]

/-- A concrete mid-gray pixel. -/
def samplePixel : Pixel := ⟨100, 100, 100, 255⟩

/-- Claim C9, witness: on a one-pixel image with the neutral profile and the
random draw 1/2 (noise 0), the per-pixel grain description holds. -/
theorem grain_stage_spec_witness :
    ∃ n : ℚ, |n| ≤ grainAmount "neutral" / 2 ∧
      (grainStage "neutral" (fun _ => 1/2) [samplePixel])[0]? =
        some { r := uint8Clamp (samplePixel.r + n), g := uint8Clamp (samplePixel.g + n),
               b := uint8Clamp (samplePixel.b + n), a := samplePixel.a } ∧
      uint8Clamp (samplePixel.r + n) ≤ 255 ∧ uint8Clamp (samplePixel.g + n) ≤ 255 ∧
      uint8Clamp (samplePixel.b + n) ≤ 255 ∧
      grainAmount "neutral" = (if "neutral" = "blue" then 14 else 22) :=
  grain_stage_spec "neutral" (fun _ => 1/2) (fun _ => ⟨by norm_num, by norm_num⟩)
    [samplePixel] 0 samplePixel rfl

/-- JS Math.atan2(y, x), modelled over the reals (signed zeros ignored):
principal angle of the point (x, y), in (-pi, pi]. -/
noncomputable def atan2 (y x : ℝ) : ℝ :=
  if 0 < x then Real.arctan (y / x)
  else if x < 0 then
    (if 0 ≤ y then Real.arctan (y / x) + Real.pi else Real.arctan (y / x) - Real.pi)
  else if 0 < y then Real.pi / 2
  else if y < 0 then -(Real.pi / 2)
  else 0

/-- Rotate branch of handleMouseMove (src/components/Photo.tsx lines 61-74):
angleDeg = Math.atan2(deltaY, deltaX) * (180 / Math.PI) + 90, with the deltas
measured from the bounding-box center (cx, cy). -/
noncomputable def rotateAngleDeg (px py cx cy : ℝ) : ℝ :=
  atan2 (py - cy) (px - cx) * (180 / Real.pi) + 90

/-- Claim C6: the new rotation is the pure function atan2 of the pointer
deltas converted to degrees plus 90; a pointer directly above the center
gives 0 degrees and a pointer directly to the right gives 90 degrees. -/
theorem rotate_angle_pure (px py cx cy : ℝ) :
    rotateAngleDeg px py cx cy
      = atan2 (py - cy) (px - cx) * (180 / Real.pi) + 90 ∧
    (px = cx → py < cy → rotateAngleDeg px py cx cy = 0) ∧
    (py = cy → cx < px → rotateAngleDeg px py cx cy = 90) := by
  refine ⟨rfl, ?_, ?_⟩
  · intro hx hy
    have hdx : px - cx = 0 := by rw [hx]; ring
    have hdy : py - cy < 0 := by linarith
    unfold rotateAngleDeg
    rw [hdx]
    unfold atan2
    rw [if_neg (lt_irrefl 0), if_neg (lt_irrefl 0), if_neg (not_lt.mpr hdy.le),
      if_pos hdy]
    have hpi := Real.pi_ne_zero
    field_simp
    ring
  · intro hy hx
    have hdy : py - cy = 0 := by rw [hy]; ring
    have hdx : 0 < px - cx := by linarith
    unfold rotateAngleDeg
    rw [hdy]
    unfold atan2
    rw [if_pos hdx, zero_div, Real.arctan_zero]
    ring

/-- Claim C6, witness: center (100, 100): pointer (100, 50) directly above
gives 0 degrees, pointer (150, 100) directly right gives 90 degrees. -/
theorem rotate_angle_pure_witness :
    rotateAngleDeg 100 50 100 100 = 0 ∧ rotateAngleDeg 150 100 100 100 = 90 :=
  ⟨(rotate_angle_pure 100 50 100 100).2.1 rfl (by norm_num),
   (rotate_angle_pure 150 100 100 100).2.2 rfl (by norm_num)⟩

end SnapSnap
